import Mathlib

/-
  Shallow embedding of main.py (CEP batch processing pipeline).

  The embedded parts:
  * CEPService._realizar_consulta : classifies one HTTP response from a CEP API
    into the result dict (status 'Sucesso' with the response fields, or the
    error dict with status 'Erro').
  * CEPService.consultar_cep : normalizes the code, queries ViaCEP and, when
    the outcome is the error dict, queries OpenCEP with the same normalized
    code.  We additionally record the list of provider calls made.
  * CEPProcessor.process : reads the CSV, checks for the CEP column, maps
    consultar_cep over the codes, initializes the EMAIL column to the empty
    string, and writes the spreadsheet.
  * EmailSender.send_emails : iterates the rows; rows whose status is not
    'Sucesso' get EMAIL = 'Erro' with no mail transport call; rows with
    status 'Sucesso' get a rendered message and one SMTP session, with the
    Python scoping subtlety that the except-handler itself references the
    local variable msg, which is unbound until the first message of the run
    has been constructed.
  * gerar_relatorio_pdf : the four summary counts of the PDF report.

  Remote services, SMTP and the filesystem are opaque to the program, so they
  enter as parameters: each lookup provider is a function from the queried
  string to an HttpResult, and the per-row transport outcome is a function
  from the row index to a Bool.  Logging and printing have no effect on the
  data flow and are not modelled.
-/

namespace CepProc

/-- A parsed JSON body as the program observes it.  A field is `none` when the
corresponding key is absent from the object.  `temErro` models the test
`'erro' in resposta` (key presence, not the key's value). -/
structure Resposta where
  temErro : Bool
  cep : Option String
  logradouro : Option String
  bairro : Option String
  localidade : Option String
  uf : Option String
deriving DecidableEq

/-- Outcome of one `requests.get` call as seen by `_realizar_consulta`:
`failure` covers every exception before a body is parsed (timeout, transport
error, `raise_for_status` on a non-2xx answer, or a JSON decoding error);
`body` is a successfully parsed JSON object. -/
inductive HttpResult where
  | failure : HttpResult
  | body : Resposta → HttpResult
deriving DecidableEq

/-- The dict returned by `_realizar_consulta`: on success the response fields
plus `status = 'Sucesso'`, on any error `{'cep': cep, 'status': 'Erro'}`. -/
structure Registro where
  cep : String
  status : String
  logradouro : Option String
  bairro : Option String
  localidade : Option String
  uf : Option String
deriving DecidableEq

/-- The error dict `{'cep': cep, 'status': 'Erro'}` (main.py line 82). -/
def registroErro (cep0 : String) : Registro :=
  { cep := cep0, status := "Erro", logradouro := none, bairro := none,
    localidade := none, uf := none }

/-- CEPService._realizar_consulta (main.py lines 68-82).  A parsed body is an
error when the key 'erro' is present or `resposta.get('cep')` is falsy
(absent key or empty string); otherwise `status = 'Sucesso'` is added and the
response dict is returned verbatim. -/
def realizarConsulta (resp : HttpResult) (cep0 : String) : Registro :=
  match resp with
  | HttpResult.failure => registroErro cep0
  | HttpResult.body r =>
      if r.temErro || r.cep.getD ("") == "" then registroErro cep0
      else
        { cep := r.cep.getD (""), status := "Sucesso", logradouro := r.logradouro,
          bairro := r.bairro, localidade := r.localidade, uf := r.uf }

/-- Identifier of the two lookup providers, in priority order. -/
inductive ProviderId where
  | viacep : ProviderId
  | opencep : ProviderId
deriving DecidableEq

/-- Remove leading and trailing whitespace from a character list (Python's
`str.strip()`). -/
def tiraEspacos (cs : List Char) : List Char :=
  ((cs.dropWhile Char.isWhitespace).reverse.dropWhile Char.isWhitespace).reverse

/-- Normalization at main.py line 86: `cep.replace("-", "").strip()`.
`replace` with the one-character pattern `-` deletes every hyphen, and
`strip` removes whitespace at both ends; both are expressed on the
character list so that they compute by kernel reduction. -/
def normalizar (cep0 : String) : String :=
  String.mk (tiraEspacos (cep0.data.filter (fun c => !(c == '-'))))

/-- Result of consultar_cep together with the trace of provider calls made,
in order, each with the string it was queried with. -/
structure ConsultaOut where
  registro : Registro
  chamadas : List (ProviderId × String)
deriving DecidableEq

/-- CEPService.consultar_cep (main.py lines 84-94): normalize, query ViaCEP,
and exactly when that outcome has status 'Erro' query OpenCEP with the same
normalized code; the last response obtained is returned. -/
def consultarCep (pv po : String → HttpResult) (cep0 : String) : ConsultaOut :=
  if (realizarConsulta (pv (normalizar cep0)) (normalizar cep0)).status = "Erro" then
    { registro := realizarConsulta (po (normalizar cep0)) (normalizar cep0),
      chamadas := [(ProviderId.viacep, normalizar cep0),
                   (ProviderId.opencep, normalizar cep0)] }
  else
    { registro := realizarConsulta (pv (normalizar cep0)) (normalizar cep0),
      chamadas := [(ProviderId.viacep, normalizar cep0)] }

/-- One row of the result DataFrame: the consultar_cep dict plus the EMAIL
column that CEPProcessor.process initializes to the empty string (line 116)
and EmailSender.send_emails later overwrites. -/
structure Linha where
  cep : String
  status : String
  logradouro : Option String
  bairro : Option String
  localidade : Option String
  uf : Option String
  email : String
deriving DecidableEq

/-- Turn a consultar_cep result into a DataFrame row with EMAIL = "". -/
def paraLinha (r : Registro) : Linha :=
  { cep := r.cep, status := r.status, logradouro := r.logradouro,
    bairro := r.bairro, localidade := r.localidade, uf := r.uf, email := "" }

/-- The input CSV as the program observes it: whether the column 'CEP' exists,
and the stringified values of that column in order. -/
structure CsvFile where
  temColunaCep : Bool
  ceps : List String
deriving DecidableEq

/-- Observable outcome of CEPProcessor.process: the returned DataFrame rows
(`none` when the function falls into an except-branch and returns None), the
provider calls made, and whether the output spreadsheet was written. -/
structure ProcessOut where
  resultado : Option (List Linha)
  chamadas : List (ProviderId × String)
  planilhaGravada : Bool
deriving DecidableEq

/-- CEPProcessor.process (main.py lines 101-133).  `arquivo = none` models a
FileNotFoundError from read_csv.  A CSV without the column 'CEP' raises
ValueError at line 105, caught at line 125: no provider call has been made,
no row built, no spreadsheet written, and None is returned.  Otherwise every
code is resolved in order, the EMAIL column is initialized and the
spreadsheet is written. -/
def process (pv po : String → HttpResult) (arquivo : Option CsvFile) : ProcessOut :=
  match arquivo with
  | none => { resultado := none, chamadas := [], planilhaGravada := false }
  | some f =>
      if f.temColunaCep then
        { resultado := some ((f.ceps.map (consultarCep pv po)).map
            (fun o => paraLinha o.registro)),
          chamadas := ((f.ceps.map (consultarCep pv po)).map
            (fun o => o.chamadas)).flatten,
          planilhaGravada := true }
      else { resultado := none, chamadas := [], planilhaGravada := false }

/-- True when the DataFrame built from `dados` lacks the given column
entirely, i.e. no row's dict carried that key; row access `cep[coluna]`
then raises KeyError. -/
def colunaAusente (dados : List Linha) (campo : Linha → Option String) : Bool :=
  dados.all (fun r => (campo r).isNone)

/-- Whether the template rendering at main.py lines 146-151 raises for the
rows of this DataFrame: it reads the columns logradouro, bairro, localidade
and uf, so it raises KeyError exactly when one of those columns is absent
from the DataFrame.  (A present column whose cell is NaN renders as the
string 'nan' and does not raise.) -/
def renderFalha (dados : List Linha) : Bool :=
  colunaAusente dados (fun r => r.logradouro) || colunaAusente dados (fun r => r.bairro) ||
  colunaAusente dados (fun r => r.localidade) || colunaAusente dados (fun r => r.uf)

/-- Overwrite the EMAIL cell of a row (`dados_ceps.at[index, 'EMAIL'] = v`). -/
def setEmail (r : Linha) (v : String) : Linha :=
  { r with email := v }

/-- Observable outcome of EmailSender.send_emails: the rows after the loop
(rows past an escaped exception keep their incoming EMAIL value), the indices
of rows for which an SMTP session was opened, and whether an exception
escaped the loop. -/
structure EnvioOut where
  linhas : List Linha
  chamadas : List Nat
  excecao : Bool
deriving DecidableEq

/-- The loop of EmailSender.send_emails (main.py lines 142-186).  `rf` is
`renderFalha` of the whole DataFrame (the column set does not change during
the loop), `ok idx` tells whether the SMTP session for row `idx` completes
without exception, and `msgDef` tracks whether the Python local `msg` is
bound.  For a row with status 'Sucesso': if rendering raises, the except
handler (line 174) itself reads `msg`, so with `msg` unbound the handler
raises and the loop aborts, the row's EMAIL untouched; with `msg` bound from
an earlier row the handler sets EMAIL = 'Erro' and continues.  If rendering
succeeds, `msg` is bound, one SMTP session is opened, and EMAIL is set to
'Sucesso' or, via the handler, 'Erro'.  Any other row gets EMAIL = 'Erro'
with no session. -/
def envioLoop (rf : Bool) (ok : Nat → Bool) : Nat → Bool → List Linha → EnvioOut
  | _, _, [] => { linhas := [], chamadas := [], excecao := false }
  | idx, msgDef, r :: rs =>
      if r.status = "Sucesso" then
        if rf then
          if msgDef then
            let o := envioLoop rf ok (idx + 1) true rs
            { linhas := setEmail r ("Erro") :: o.linhas, chamadas := o.chamadas,
              excecao := o.excecao }
          else { linhas := r :: rs, chamadas := [], excecao := true }
        else
          let o := envioLoop rf ok (idx + 1) true rs
          { linhas := setEmail r (if ok idx then "Sucesso" else "Erro") :: o.linhas,
            chamadas := idx :: o.chamadas, excecao := o.excecao }
      else
        let o := envioLoop rf ok (idx + 1) msgDef rs
        { linhas := setEmail r ("Erro") :: o.linhas, chamadas := o.chamadas,
          excecao := o.excecao }

/-- EmailSender.send_emails (main.py lines 139-189), starting the loop on the
first row with the local `msg` unbound. -/
def sendEmails (ok : Nat → Bool) (dados : List Linha) : EnvioOut :=
  envioLoop (renderFalha dados) ok 0 false dados

/-- The four counts of the summary page of gerar_relatorio_pdf
(main.py lines 211-215). -/
structure Resumo where
  consultasSucesso : Nat
  consultasErro : Nat
  emailsSucesso : Nat
  emailsErro : Nat
deriving DecidableEq

/-- gerar_relatorio_pdf, restricted to its data content: each count is the
number of rows whose column equals the target string. -/
def gerarRelatorioPdf (dados : List Linha) : Resumo :=
  { consultasSucesso := dados.countP (fun r => r.status == "Sucesso"),
    consultasErro := dados.countP (fun r => r.status == "Erro"),
    emailsSucesso := dados.countP (fun r => r.email == "Sucesso"),
    emailsErro := dados.countP (fun r => r.email == "Erro") }

/-- Default row used with List.getD. -/
def linhaVazia : Linha :=
  { cep := "", status := "", logradouro := none, bairro := none,
    localidade := none, uf := none, email := "" }

/-- A complete successful JSON body, as ViaCEP returns for an existing code. -/
def corpoCompleto : Resposta :=
  { temErro := false, cep := some "01001000", logradouro := some "Praca da Se",
    bairro := some "Se", localidade := some "Sao Paulo", uf := some "SP" }

/-- A JSON body with a cep key and no error marker but none of the four
address attributes; `_realizar_consulta` accepts it. -/
def corpoSemEndereco : Resposta :=
  { temErro := false, cep := some "01001000", logradouro := none, bairro := none,
    localidade := none, uf := none }

/-- The row produced by the pipeline for `corpoSemEndereco`: lookup succeeded
but all four address columns are absent. -/
def linhaSemCampos : Linha :=
  paraLinha (realizarConsulta (HttpResult.body corpoSemEndereco) ("01001000"))

/-- A row with a successful lookup, full address data, and a terminal EMAIL
value from an earlier send_emails run. -/
def linhaTerminal : Linha :=
  { cep := "01001000", status := "Sucesso", logradouro := some "Praca da Se",
    bairro := some "Se", localidade := some "Sao Paulo", uf := some "SP",
    email := "Sucesso" }

/-- A CSV whose CEP column is missing. -/
def csvSemColuna : CsvFile :=
  { temColunaCep := false, ceps := ["01001000"] }

/-- The row the pipeline builds for a code both providers failed on. -/
def linhaFalha : Linha :=
  paraLinha (registroErro ("00000000"))

/-- A provider that answers every query with the complete body. -/
def provedorOkTeste : String → HttpResult :=
  fun _ => HttpResult.body corpoCompleto

/-- The rows process builds for the one-code input with both providers
answering the complete body. -/
def dadosTeste : List Linha :=
  ((["01001-000"].map (consultarCep provedorOkTeste provedorOkTeste)).map
    (fun o => paraLinha o.registro))

/-- A completed send_emails run over dadosTeste. -/
def envioTeste : EnvioOut :=
  sendEmails (fun _ => true) dadosTeste

/- ------------------------------------------------------------------ -/
/- Helper lemmas                                                       -/
/- ------------------------------------------------------------------ -/

/-- The loop of send_emails touches neither the number of rows nor any
column other than EMAIL; row counts are preserved. -/
theorem envioLoop_length (rf : Bool) (ok : Nat → Bool) (idx : Nat) (md : Bool)
    (rs : List Linha) :
    (envioLoop rf ok idx md rs).linhas.length = rs.length := by
  induction rs generalizing idx md with
  | nil => rfl
  | cons r rs ih =>
      simp only [envioLoop]
      split_ifs <;> simp [setEmail, ih]

/-- Each row of the loop's output agrees with the corresponding input row on
every column except EMAIL. -/
theorem envioLoop_frame (rf : Bool) (ok : Nat → Bool) (idx : Nat) (md : Bool)
    (rs : List Linha) (k : Nat) :
    (((envioLoop rf ok idx md rs).linhas.getD k linhaVazia).cep = (rs.getD k linhaVazia).cep ∧
     ((envioLoop rf ok idx md rs).linhas.getD k linhaVazia).status = (rs.getD k linhaVazia).status ∧
     ((envioLoop rf ok idx md rs).linhas.getD k linhaVazia).logradouro = (rs.getD k linhaVazia).logradouro ∧
     ((envioLoop rf ok idx md rs).linhas.getD k linhaVazia).bairro = (rs.getD k linhaVazia).bairro ∧
     ((envioLoop rf ok idx md rs).linhas.getD k linhaVazia).localidade = (rs.getD k linhaVazia).localidade ∧
     ((envioLoop rf ok idx md rs).linhas.getD k linhaVazia).uf = (rs.getD k linhaVazia).uf) := by
  induction rs generalizing idx md k with
  | nil => exact ⟨rfl, rfl, rfl, rfl, rfl, rfl⟩
  | cons r rs ih =>
      simp only [envioLoop]
      split_ifs with h1 h2 h3 h4
      · cases k with
        | zero => exact ⟨rfl, rfl, rfl, rfl, rfl, rfl⟩
        | succ k => simpa using ih (idx + 1) true k
      · exact ⟨rfl, rfl, rfl, rfl, rfl, rfl⟩
      · cases k with
        | zero => exact ⟨rfl, rfl, rfl, rfl, rfl, rfl⟩
        | succ k => simpa using ih (idx + 1) true k
      · cases k with
        | zero => exact ⟨rfl, rfl, rfl, rfl, rfl, rfl⟩
        | succ k => simpa using ih (idx + 1) true k
      · cases k with
        | zero => exact ⟨rfl, rfl, rfl, rfl, rfl, rfl⟩
        | succ k => simpa using ih (idx + 1) md k

/-- Every SMTP session of the loop belongs to a row, counted from the
starting index, whose status is Sucesso. -/
theorem envioLoop_chamadas_caracteriza (rf : Bool) (ok : Nat → Bool) (idx : Nat)
    (md : Bool) (rs : List Linha) (j : Nat)
    (hj : j ∈ (envioLoop rf ok idx md rs).chamadas) :
    ∃ k, k < rs.length ∧ j = idx + k ∧ (rs.getD k linhaVazia).status = "Sucesso" := by
  induction rs generalizing idx md with
  | nil => simp [envioLoop] at hj
  | cons r rs ih =>
      simp only [envioLoop] at hj
      split_ifs at hj with h1 h2 h3 h4
      · obtain ⟨k, hk, hjk, hks⟩ := ih (idx + 1) true hj
        exact ⟨k + 1, by simpa using hk, by omega, by simpa using hks⟩
      · simp at hj
      · rcases List.mem_cons.mp hj with h | h
        · exact ⟨0, by simp, by omega, by simpa using h1⟩
        · obtain ⟨k, hk, hjk, hks⟩ := ih (idx + 1) true h
          exact ⟨k + 1, by simpa using hk, by omega, by simpa using hks⟩
      · rcases List.mem_cons.mp hj with h | h
        · exact ⟨0, by simp, by omega, by simpa using h1⟩
        · obtain ⟨k, hk, hjk, hks⟩ := ih (idx + 1) true h
          exact ⟨k + 1, by simpa using hk, by omega, by simpa using hks⟩
      · obtain ⟨k, hk, hjk, hks⟩ := ih (idx + 1) md hj
        exact ⟨k + 1, by simpa using hk, by omega, by simpa using hks⟩

/-- In a run of the loop that no exception escapes, every row whose status is
not Sucesso ends with EMAIL = 'Erro'. -/
theorem envioLoop_email_erro (rf : Bool) (ok : Nat → Bool) (idx : Nat) (md : Bool)
    (rs : List Linha) (k : Nat) (hk : k < rs.length)
    (hexc : (envioLoop rf ok idx md rs).excecao = false)
    (hs : (rs.getD k linhaVazia).status ≠ "Sucesso") :
    ((envioLoop rf ok idx md rs).linhas.getD k linhaVazia).email = "Erro" := by
  induction rs generalizing idx md k with
  | nil => simp at hk
  | cons r rs ih =>
      simp only [envioLoop] at hexc ⊢
      split_ifs at hexc ⊢ with h1 h2 h3 h4
      · cases k with
        | zero => exact absurd h1 (by simpa using hs)
        | succ k =>
            exact ih (idx + 1) true k (by simpa using hk) hexc (by simpa using hs)
      · cases k with
        | zero => exact absurd h1 (by simpa using hs)
        | succ k =>
            exact ih (idx + 1) true k (by simpa using hk) hexc (by simpa using hs)
      · cases k with
        | zero => exact absurd h1 (by simpa using hs)
        | succ k =>
            exact ih (idx + 1) true k (by simpa using hk) hexc (by simpa using hs)
      · cases k with
        | zero => rfl
        | succ k =>
            exact ih (idx + 1) md k (by simpa using hk) hexc (by simpa using hs)

/-- In a run of the loop that no exception escapes, every row ends with a
terminal EMAIL value. -/
theorem envioLoop_email_terminal (rf : Bool) (ok : Nat → Bool) (idx : Nat) (md : Bool)
    (rs : List Linha)
    (hexc : (envioLoop rf ok idx md rs).excecao = false) :
    ∀ l ∈ (envioLoop rf ok idx md rs).linhas, l.email = "Sucesso" ∨ l.email = "Erro" := by
  induction rs generalizing idx md with
  | nil => simp [envioLoop]
  | cons r rs ih =>
      simp only [envioLoop] at hexc ⊢
      split_ifs at hexc ⊢ with h1 h2 h3 h4
      · intro l hl
        rcases List.mem_cons.mp hl with rfl | hl
        · exact Or.inr rfl
        · exact ih (idx + 1) true hexc l hl
      · intro l hl
        rcases List.mem_cons.mp hl with rfl | hl
        · exact Or.inl rfl
        · exact ih (idx + 1) true hexc l hl
      · intro l hl
        rcases List.mem_cons.mp hl with rfl | hl
        · exact Or.inr rfl
        · exact ih (idx + 1) true hexc l hl
      · intro l hl
        rcases List.mem_cons.mp hl with rfl | hl
        · exact Or.inr rfl
        · exact ih (idx + 1) md hexc l hl

/-- The loop preserves the sequence of lookup statuses. -/
theorem envioLoop_status_map (rf : Bool) (ok : Nat → Bool) (idx : Nat) (md : Bool)
    (rs : List Linha) :
    (envioLoop rf ok idx md rs).linhas.map (fun l => l.status) =
      rs.map (fun l => l.status) := by
  induction rs generalizing idx md with
  | nil => rfl
  | cons r rs ih =>
      simp only [envioLoop]
      split_ifs <;> simp [setEmail, ih]

/-- Transfer a property of the statuses of the input rows to the output. -/
theorem envioLoop_status_mem (rf : Bool) (ok : Nat → Bool) (idx : Nat) (md : Bool)
    (rs : List Linha) (P : String → Prop)
    (h : ∀ l ∈ rs, P l.status) :
    ∀ l ∈ (envioLoop rf ok idx md rs).linhas, P l.status := by
  intro l hl
  have hmem : l.status ∈ (envioLoop rf ok idx md rs).linhas.map (fun x => x.status) :=
    List.mem_map_of_mem _ hl
  rw [envioLoop_status_map rf ok idx md rs] at hmem
  obtain ⟨x, hx, hxl⟩ := List.mem_map.mp hmem
  rw [← hxl]
  exact h x hx

/-- With rendering sound, the loop opens one SMTP session for every row whose
status is Sucesso, whatever its EMAIL value. -/
theorem envioLoop_chamada_sucesso (ok : Nat → Bool) (idx : Nat) (md : Bool)
    (rs : List Linha) (k : Nat) (hk : k < rs.length)
    (hs : (rs.getD k linhaVazia).status = "Sucesso") :
    (idx + k) ∈ (envioLoop false ok idx md rs).chamadas := by
  induction rs generalizing idx md k with
  | nil => simp at hk
  | cons r rs ih =>
      simp only [envioLoop]
      split_ifs with h1 h2 h3
      · exact absurd h2 (by decide)
      · exact absurd h2 (by decide)
      · cases k with
        | zero => exact List.mem_cons_self _ _
        | succ k =>
            have harit : idx + (k + 1) = (idx + 1) + k := by omega
            rw [harit]
            exact List.mem_cons_of_mem _ (ih (idx + 1) true k (by simpa using hk)
              (by simpa using hs))
      · cases k with
        | zero => exact List.mem_cons_self _ _
        | succ k =>
            have harit : idx + (k + 1) = (idx + 1) + k := by omega
            rw [harit]
            exact List.mem_cons_of_mem _ (ih (idx + 1) true k (by simpa using hk)
              (by simpa using hs))
      · cases k with
        | zero => exact absurd (by simpa using hs) h1
        | succ k =>
            have harit : idx + (k + 1) = (idx + 1) + k := by omega
            rw [harit]
            exact ih (idx + 1) md k (by simpa using hk) (by simpa using hs)

/-- Counting rows by a string column that takes only the two values Sucesso
and Erro partitions the batch. -/
theorem contagem_dois_valores (g : Linha → String) (l : List Linha)
    (h : ∀ r ∈ l, g r = "Sucesso" ∨ g r = "Erro") :
    l.countP (fun r => g r == "Sucesso") + l.countP (fun r => g r == "Erro") = l.length := by
  induction l with
  | nil => rfl
  | cons a l ih =>
      have ha := h a (List.mem_cons_self a l)
      have hl : ∀ r ∈ l, g r = "Sucesso" ∨ g r = "Erro" :=
        fun r hr => h r (List.mem_cons_of_mem a hr)
      rcases ha with ha | ha
      · rw [List.countP_cons_of_pos _ _ (by rw [ha]; rfl),
          List.countP_cons_of_neg _ _ (by rw [ha]; decide),
          List.length_cons]
        have hi := ih hl
        omega
      · rw [List.countP_cons_of_neg _ _ (by rw [ha]; decide),
          List.countP_cons_of_pos _ _ (by rw [ha]; rfl),
          List.length_cons]
        have hi := ih hl
        omega

/-- The status produced by `_realizar_consulta` is always Sucesso or Erro. -/
theorem realizarConsulta_status (resp : HttpResult) (cep0 : String) :
    (realizarConsulta resp cep0).status = "Sucesso" ∨
      (realizarConsulta resp cep0).status = "Erro" := by
  cases resp with
  | failure => exact Or.inr rfl
  | body r =>
      by_cases h : (r.temErro || r.cep.getD ("") == "") = true
      · exact Or.inr (by simp [realizarConsulta, h, registroErro])
      · exact Or.inl (by simp [realizarConsulta, h])

/-- When the primary outcome is Sucesso, consultar_cep keeps it and makes no
second call. -/
theorem consultarCep_primario (pv po : String → HttpResult) (cep0 : String)
    (h : (realizarConsulta (pv (normalizar cep0)) (normalizar cep0)).status = "Sucesso") :
    consultarCep pv po cep0 =
      { registro := realizarConsulta (pv (normalizar cep0)) (normalizar cep0),
        chamadas := [(ProviderId.viacep, normalizar cep0)] } := by
  unfold consultarCep
  rw [if_neg (by rw [h]; decide)]

/-- When the primary outcome is Erro, consultar_cep returns the secondary
outcome after calling both providers. -/
theorem consultarCep_secundario (pv po : String → HttpResult) (cep0 : String)
    (h : (realizarConsulta (pv (normalizar cep0)) (normalizar cep0)).status = "Erro") :
    consultarCep pv po cep0 =
      { registro := realizarConsulta (po (normalizar cep0)) (normalizar cep0),
        chamadas := [(ProviderId.viacep, normalizar cep0),
                     (ProviderId.opencep, normalizar cep0)] } := by
  unfold consultarCep
  rw [if_pos h]

/-- The status of the record consultar_cep returns is Sucesso or Erro. -/
theorem consultarCep_status (pv po : String → HttpResult) (cep0 : String) :
    (consultarCep pv po cep0).registro.status = "Sucesso" ∨
      (consultarCep pv po cep0).registro.status = "Erro" := by
  unfold consultarCep
  split
  · exact realizarConsulta_status _ _
  · exact realizarConsulta_status _ _

/-- Lookup status dichotomy for the rows process builds. -/
theorem linhas_process_status (pv po : String → HttpResult) (ceps : List String) :
    ∀ l ∈ (ceps.map (consultarCep pv po)).map (fun o => paraLinha o.registro),
      l.status = "Sucesso" ∨ l.status = "Erro" := by
  intro l hl
  simp only [List.map_map, List.mem_map] at hl
  obtain ⟨c, _, rfl⟩ := hl
  exact consultarCep_status pv po c

/- ------------------------------------------------------------------ -/
/- Claims                                                              -/
/- ------------------------------------------------------------------ -/

/-- C1: consultar_cep queries the primary provider (ViaCEP) first; exactly
when that outcome does not have status Sucesso it queries the secondary
provider (OpenCEP) with the same normalized code; the returned record has
status Sucesso iff one of the two provider outcomes does (otherwise it is
Erro); and the record is verbatim the classified outcome of the first
provider that resolved, with no merging across providers. -/
theorem consultarCep_fallback_exato (pv po : String → HttpResult) (cep0 : String) :
    (((realizarConsulta (pv (normalizar cep0)) (normalizar cep0)).status = "Sucesso" →
        consultarCep pv po cep0 =
          { registro := realizarConsulta (pv (normalizar cep0)) (normalizar cep0),
            chamadas := [(ProviderId.viacep, normalizar cep0)] }) ∧
      ((realizarConsulta (pv (normalizar cep0)) (normalizar cep0)).status ≠ "Sucesso" →
        consultarCep pv po cep0 =
          { registro := realizarConsulta (po (normalizar cep0)) (normalizar cep0),
            chamadas := [(ProviderId.viacep, normalizar cep0),
                         (ProviderId.opencep, normalizar cep0)] }) ∧
      ((consultarCep pv po cep0).registro.status = "Sucesso" ↔
        ((realizarConsulta (pv (normalizar cep0)) (normalizar cep0)).status = "Sucesso" ∨
         (realizarConsulta (po (normalizar cep0)) (normalizar cep0)).status = "Sucesso")) ∧
      ((consultarCep pv po cep0).registro.status ≠ "Sucesso" →
        (consultarCep pv po cep0).registro.status = "Erro")) := by
  rcases realizarConsulta_status (pv (normalizar cep0)) (normalizar cep0) with hS | hE
  · have hcc := consultarCep_primario pv po cep0 hS
    refine ⟨fun _ => hcc, fun hn => absurd hS hn, ?_, ?_⟩
    · rw [hcc]
      simp [hS]
    · rw [hcc]
      intro hn
      exact absurd hS hn
  · have hNS : (realizarConsulta (pv (normalizar cep0)) (normalizar cep0)).status ≠ "Sucesso" := by
      rw [hE]; decide
    have hcc := consultarCep_secundario pv po cep0 hE
    refine ⟨fun hS => absurd hS hNS, fun _ => hcc, ?_, ?_⟩
    · rw [hcc]
      constructor
      · intro h
        exact Or.inr h
      · rintro (h | h)
        · exact absurd h hNS
        · exact h
    · rw [hcc]
      intro hn
      exact (realizarConsulta_status (po (normalizar cep0)) (normalizar cep0)).resolve_left hn

/-- C3: consultar_cep makes at most two provider calls, and when the primary
outcome is Sucesso it makes exactly one call, to ViaCEP only. -/
theorem consultarCep_no_maximo_duas_chamadas (pv po : String → HttpResult) (cep0 : String) :
    ((consultarCep pv po cep0).chamadas.length ≤ 2 ∧
      ((realizarConsulta (pv (normalizar cep0)) (normalizar cep0)).status = "Sucesso" →
        (consultarCep pv po cep0).chamadas = [(ProviderId.viacep, normalizar cep0)] ∧
        (consultarCep pv po cep0).chamadas.length = 1)) := by
  rcases realizarConsulta_status (pv (normalizar cep0)) (normalizar cep0) with hS | hE
  · rw [consultarCep_primario pv po cep0 hS]
    exact ⟨by simp, fun _ => ⟨rfl, rfl⟩⟩
  · rw [consultarCep_secundario pv po cep0 hE]
    refine ⟨by simp, fun hS => ?_⟩
    rw [hE] at hS
    exact absurd hS (by decide)

/-- C4: consultar_cep is total over provider behaviour (it is a function of
the two provider oracles, which cover timeouts, transport errors and
malformed bodies) and the status of the record it returns is exactly one of
Sucesso and Erro; in particular no Pending-like value ever appears. -/
theorem consultarCep_status_terminal (pv po : String → HttpResult) (cep0 : String) :
    (((consultarCep pv po cep0).registro.status = "Sucesso" ∨
       (consultarCep pv po cep0).registro.status = "Erro") ∧
      ¬((consultarCep pv po cep0).registro.status = "Sucesso" ∧
        (consultarCep pv po cep0).registro.status = "Erro")) := by
  refine ⟨consultarCep_status pv po cep0, ?_⟩
  rintro ⟨h1, h2⟩
  rw [h1] at h2
  exact absurd h2 (by decide)

/-- C7 counterexample: a body carrying a cep key, no error marker and none of
the four address attributes is classified Sucesso, so Resolved does not
require the address attributes. -/
theorem realizarConsulta_sucesso_sem_endereco :
    ((realizarConsulta (HttpResult.body corpoSemEndereco) ("01001000")).status = "Sucesso" ∧
      (realizarConsulta (HttpResult.body corpoSemEndereco) ("01001000")).logradouro = none ∧
      (realizarConsulta (HttpResult.body corpoSemEndereco) ("01001000")).bairro = none ∧
      (realizarConsulta (HttpResult.body corpoSemEndereco) ("01001000")).localidade = none ∧
      (realizarConsulta (HttpResult.body corpoSemEndereco) ("01001000")).uf = none) := by
  decide

/-- C7 amended: the adapter classifies an outcome as Sucesso iff the call
produced a parsed body whose 'erro' key is absent and whose 'cep' value is
present and non-empty; transport failures, bodies with the error marker and
bodies missing the cep value are classified Erro.  The four address
attributes are not checked. -/
theorem realizarConsulta_sucesso_iff (resp : HttpResult) (cep0 : String) :
    ((realizarConsulta resp cep0).status = "Sucesso" ↔
      ∃ r, resp = HttpResult.body r ∧ r.temErro = false ∧ ¬r.cep.getD ("") = "") := by
  cases resp with
  | failure => simp [realizarConsulta, registroErro]
  | body r =>
      by_cases h : (r.temErro || r.cep.getD ("") == "") = true
      · rw [realizarConsulta, if_pos h]
        simp only [Bool.or_eq_true, beq_iff_eq] at h
        constructor
        · intro hs
          exact absurd hs (by simp [registroErro])
        · rintro ⟨r2, hr2, hne, hcep⟩
          injection hr2 with hrr
          subst hrr
          rcases h with h | h
          · rw [hne] at h
            exact absurd h (by decide)
          · exact absurd h hcep
      · rw [realizarConsulta, if_neg h]
        simp only [Bool.or_eq_true, beq_iff_eq, not_or] at h
        simp
        exact ⟨Bool.not_eq_true _ ▸ h.1, h.2⟩

/-- C9: when the input CSV lacks the CEP column, process makes no provider
call, builds no record, writes no spreadsheet, and returns None. -/
theorem process_sem_coluna_cep (pv po : String → HttpResult) (f : CsvFile)
    (h : f.temColunaCep = false) :
    process pv po (some f) =
      { resultado := none, chamadas := [], planilhaGravada := false } := by
  simp [process, h]

/-- Witness for the C9 theorem at a concrete CSV. -/
theorem process_sem_coluna_cep_witness :
    process (fun _ => HttpResult.failure) (fun _ => HttpResult.failure) (some csvSemColuna) =
      { resultado := none, chamadas := [], planilhaGravada := false } :=
  process_sem_coluna_cep (fun _ => HttpResult.failure) (fun _ => HttpResult.failure)
    csvSemColuna rfl

/-- C2: in a send_emails run that no exception escapes, every row whose
lookup status is Erro ends with EMAIL = 'Erro' and no SMTP session (hence no
login and no send) is ever opened for its index. -/
theorem sendEmails_falha_sem_envio (ok : Nat → Bool) (dados : List Linha) (k : Nat)
    (hk : k < dados.length)
    (hs : (dados.getD k linhaVazia).status = "Erro")
    (hexc : (sendEmails ok dados).excecao = false) :
    (((sendEmails ok dados).linhas.getD k linhaVazia).email = "Erro" ∧
      k ∉ (sendEmails ok dados).chamadas) := by
  have hns : (dados.getD k linhaVazia).status ≠ "Sucesso" := by
    rw [hs]; decide
  constructor
  · exact envioLoop_email_erro (renderFalha dados) ok 0 false dados k hk hexc hns
  · intro hmem
    obtain ⟨k2, hk2, hjk, hks⟩ :=
      envioLoop_chamadas_caracteriza (renderFalha dados) ok 0 false dados k hmem
    have hkeq : k2 = k := by omega
    rw [hkeq] at hks
    exact hns hks

/-- Witness for the C2 theorem at a concrete batch of one failed row. -/
theorem sendEmails_falha_sem_envio_witness :
    (((sendEmails (fun _ => true) [linhaFalha]).linhas.getD 0 linhaVazia).email = "Erro" ∧
      0 ∉ (sendEmails (fun _ => true) [linhaFalha]).chamadas) :=
  sendEmails_falha_sem_envio (fun _ => true) [linhaFalha] 0 (by decide) (by decide)
    (by decide)

/-- C6: the claim fails on the code.  For the one-row batch whose row has a
successful lookup but no address columns (a body the adapter accepts with
only a cep value), rendering raises KeyError, and the except handler at
main.py line 174 reads the local variable msg, unbound at that point, so the
handler itself raises and send_emails aborts: EMAIL is left untouched and no
further row would be processed, instead of recording Erro and continuing. -/
theorem sendEmails_excecao_render_primeira_linha :
    sendEmails (fun _ => true) [linhaSemCampos] =
      { linhas := [linhaSemCampos], chamadas := [], excecao := true } := by
  decide

/-- C8 counterexample: re-running send_emails over a batch whose single row
already carries the terminal EMAIL value 'Sucesso' opens an SMTP session for
it anyway (the EMAIL column is never consulted before sending) and
overwrites EMAIL with the outcome of the new attempt, so with a failing
transport the batch changes. -/
theorem sendEmails_reenvia_terminal :
    ((sendEmails (fun _ => false) [linhaTerminal]).chamadas = [0] ∧
      (sendEmails (fun _ => false) [linhaTerminal]).linhas =
        [setEmail linhaTerminal ("Erro")] ∧
      ¬(sendEmails (fun _ => false) [linhaTerminal]).linhas = [linhaTerminal]) := by
  decide

/-- C8 amended: re-running send_emails on a batch where every row already has
a terminal EMAIL value re-attempts the send for every row whose lookup
status is Sucesso (the prior EMAIL value is ignored; the address columns
being present, rendering does not raise): one SMTP session is opened for
each such row.  Only rows with a non-Sucesso lookup status are skipped. -/
theorem sendEmails_reexecucao_reenvia (ok : Nat → Bool) (dados : List Linha) (k : Nat)
    (hterm : ∀ l ∈ dados, l.email = "Sucesso" ∨ l.email = "Erro")
    (hrf : renderFalha dados = false)
    (hk : k < dados.length)
    (hs : (dados.getD k linhaVazia).status = "Sucesso") :
    k ∈ (sendEmails ok dados).chamadas := by
  have h0 := envioLoop_chamada_sucesso ok 0 false dados k hk hs
  rw [Nat.zero_add] at h0
  rw [sendEmails, hrf]
  exact h0

/-- Witness for the C8 amended theorem at a concrete terminal batch. -/
theorem sendEmails_reexecucao_reenvia_witness :
    0 ∈ (sendEmails (fun _ => true) [linhaTerminal]).chamadas :=
  sendEmails_reexecucao_reenvia (fun _ => true) [linhaTerminal] 0 (by decide) (by decide)
    (by decide) (by decide)

/-- C10: send_emails writes only the EMAIL column: whatever the transport
outcomes, and even in an aborted run, every row keeps its cep, its lookup
status and its four address fields. -/
theorem sendEmails_moldura (ok : Nat → Bool) (dados : List Linha) (k : Nat) :
    ((((sendEmails ok dados).linhas.getD k linhaVazia).cep = (dados.getD k linhaVazia).cep ∧
      (((sendEmails ok dados).linhas.getD k linhaVazia).status = (dados.getD k linhaVazia).status) ∧
      (((sendEmails ok dados).linhas.getD k linhaVazia).logradouro = (dados.getD k linhaVazia).logradouro) ∧
      (((sendEmails ok dados).linhas.getD k linhaVazia).bairro = (dados.getD k linhaVazia).bairro) ∧
      (((sendEmails ok dados).linhas.getD k linhaVazia).localidade = (dados.getD k linhaVazia).localidade) ∧
      (((sendEmails ok dados).linhas.getD k linhaVazia).uf = (dados.getD k linhaVazia).uf))) :=
  envioLoop_frame (renderFalha dados) ok 0 false dados k

/-- C5: for a batch built by process (one row per input code) over which a
send_emails run completed without exception, each of the four report counts
is exactly the number of rows whose column equals the target value, and on
each axis the two counts sum to the batch size, which is the number of input
codes. -/
theorem relatorio_contagens (pv po : String → HttpResult) (ok : Nat → Bool)
    (ceps : List String) (dados : List Linha) (envio : EnvioOut)
    (hdados : dados = (ceps.map (consultarCep pv po)).map (fun o => paraLinha o.registro))
    (henvio : envio = sendEmails ok dados)
    (hexc : envio.excecao = false) :
    ((gerarRelatorioPdf envio.linhas).consultasSucesso =
        envio.linhas.countP (fun r => r.status == "Sucesso") ∧
      (gerarRelatorioPdf envio.linhas).consultasErro =
        envio.linhas.countP (fun r => r.status == "Erro") ∧
      (gerarRelatorioPdf envio.linhas).emailsSucesso =
        envio.linhas.countP (fun r => r.email == "Sucesso") ∧
      (gerarRelatorioPdf envio.linhas).emailsErro =
        envio.linhas.countP (fun r => r.email == "Erro") ∧
      (gerarRelatorioPdf envio.linhas).consultasSucesso +
        (gerarRelatorioPdf envio.linhas).consultasErro = envio.linhas.length ∧
      (gerarRelatorioPdf envio.linhas).emailsSucesso +
        (gerarRelatorioPdf envio.linhas).emailsErro = envio.linhas.length ∧
      envio.linhas.length = ceps.length) := by
  subst hdados
  subst henvio
  rw [sendEmails] at hexc ⊢
  refine ⟨rfl, rfl, rfl, rfl, ?_, ?_, ?_⟩
  · exact contagem_dois_valores (fun l => l.status) _
      (envioLoop_status_mem _ ok 0 false _ (fun s => s = "Sucesso" ∨ s = "Erro")
        (linhas_process_status pv po ceps))
  · exact contagem_dois_valores (fun l => l.email) _
      (envioLoop_email_terminal _ ok 0 false _ hexc)
  · rw [envioLoop_length, List.length_map, List.length_map]

/-- Witness for the C5 theorem at a concrete one-code batch. -/
theorem relatorio_contagens_witness :
    ((gerarRelatorioPdf envioTeste.linhas).consultasSucesso =
        envioTeste.linhas.countP (fun r => r.status == "Sucesso") ∧
      (gerarRelatorioPdf envioTeste.linhas).consultasErro =
        envioTeste.linhas.countP (fun r => r.status == "Erro") ∧
      (gerarRelatorioPdf envioTeste.linhas).emailsSucesso =
        envioTeste.linhas.countP (fun r => r.email == "Sucesso") ∧
      (gerarRelatorioPdf envioTeste.linhas).emailsErro =
        envioTeste.linhas.countP (fun r => r.email == "Erro") ∧
      (gerarRelatorioPdf envioTeste.linhas).consultasSucesso +
        (gerarRelatorioPdf envioTeste.linhas).consultasErro = envioTeste.linhas.length ∧
      (gerarRelatorioPdf envioTeste.linhas).emailsSucesso +
        (gerarRelatorioPdf envioTeste.linhas).emailsErro = envioTeste.linhas.length ∧
      envioTeste.linhas.length = (["01001-000"] : List String).length) :=
  relatorio_contagens provedorOkTeste provedorOkTeste (fun _ => true) (["01001-000"])
    dadosTeste envioTeste rfl rfl (by decide)

end CepProc
